import Mathlib

/-!
Verification of the fulfillment-service provisioning engine.

This file gives a shallow embedding, in Lean 4, of the parts of the Go
service that the checked properties speak about:

* the VPN provisioning engine (`internal/service/vpn_service.go`):
  `ProvisionVPNUser`, `UpdateVPNUser`, the expiration helpers
  (`calculateExpireDays`, `calculateExpireAt`,
  `calculateExpireAtWithStacking`), `calculateTrafficLimit`,
  `MapPlanToServiceTier`, and `generateRandomPassword`;
* the entitlement engine (`internal/service/entitlement_service.go`):
  `ActivateTrial` and `GiftEntitlement`;
* the hosting provisioning engine (`internal/service/provision_service.go`):
  `Provision` and `Deprovision` (with the inlined asynchronous part);
* the hosting provider client (`internal/client/hosting_client.go`):
  `WaitForNodeReady`;
* the repository queries the above rely on (the `vpn_provisions` and
  `hosting_provisions` SQL in the repository layer), modelled as pure
  functions over an in-memory list of rows ordered newest first, so that
  `ORDER BY created_at DESC LIMIT 1` becomes `List.head?` of a filter.

Database stores are lists of rows, newest first.  Wall-clock time is an
integer number of seconds; `AddDate(0, 0, d)` becomes `+ d * 86400` and
`Duration(h) * time.Hour` becomes `+ h * 3600`.  External collaborators
(the VPN manager, the hosting provider, the random source) are oracles
passed in as function-valued parameters returning `Except`, and every
call made to the VPN manager or hosting provider is recorded in an
explicit call trace so that frame properties (which calls were or were
not made) are provable.  Fresh UUIDs produced by `uuid.New()` are
parameters.  Per `cmd/api/main.go`, the entitlement engine is wired with
the same VPN provision repository as the VPN provisioner (migration
`006_split_resources_table.sql` merges the old `entitlements` table into
`vpn_provisions`), so both operate on the same store here.
-/

deriving instance DecidableEq for Except

namespace Fulfillment

/-- Bytes in a gigabyte, `1 GB = 2^30`, as in the Go constant `GB`. -/
def GB : Int := 1024 * 1024 * 1024

/-- Seconds in a day: Go `AddDate(0, 0, days)` adds calendar days. -/
def secondsPerDay : Int := 86400

/-- Seconds in an hour: Go `time.Duration(h) * time.Hour`. -/
def secondsPerHour : Int := 3600

/-- A row of `fulfillment.vpn_provisions` (`internal/models`, `VPNProvision`).
`otunUUID` is the nullable `otun_uuid` column; `expireAt` the nullable
`expire_at` timestamp, in seconds. -/
structure VPNProvision where
  id : String
  userId : String
  subscriptionId : String
  channel : String
  businessType : String
  serviceTier : String
  otunUUID : Option String
  planTier : String
  status : String
  trafficLimit : Int
  trafficUsed : Int
  expireAt : Option Int
  email : String
  deviceId : String
  grantedBy : String
  note : String
  isCurrent : Bool
deriving DecidableEq

/-- The VPN provision store: rows of `fulfillment.vpn_provisions`, newest
first, so SQL `ORDER BY created_at DESC LIMIT 1` is `head?` of a filter. -/
abbrev VPNStore := List VPNProvision

/-- Whether a nullable `otun_uuid` column value is present and non-empty
(`otun_uuid IS NOT NULL AND otun_uuid != ''`). -/
def nonEmptyUUID : Option String → Bool
  | some u => u != ""
  | none => false

/-- `VPNProvisionRepository.GetBySubscriptionID`: newest row with the given
`subscription_id` and `is_current = TRUE`. -/
def getBySubscriptionID (db : VPNStore) (sid : String) : Option VPNProvision :=
  (db.filter (fun r => r.subscriptionId == sid && r.isCurrent)).head?

/-- `VPNProvisionRepository.GetCurrentByUserAnyStatus`: newest row with the
given `user_id` and `is_current = TRUE`, any status. -/
def getCurrentByUserAnyStatus (db : VPNStore) (uid : String) : Option VPNProvision :=
  (db.filter (fun r => r.userId == uid && r.isCurrent)).head?

/-- `VPNProvisionRepository.GetOtunUUIDByUser` (and, identically,
`EntitlementRepository.GetOtunUUIDByUserID`): the `otun_uuid` of the newest
row of the user with a non-empty `otun_uuid`. -/
def getOtunUUIDByUser (db : VPNStore) (uid : String) : Option String :=
  match (db.filter (fun r => r.userId == uid && nonEmptyUUID r.otunUUID)).head? with
  | some r => r.otunUUID
  | none => none

/-- `VPNProvisionRepository.GetByUserAndBusinessType` (and, identically over
the merged store, `EntitlementRepository.GetByUserIDAndSource`): newest row
of the user with the given business type. -/
def getByUserAndBusinessType (db : VPNStore) (uid bt : String) : Option VPNProvision :=
  (db.filter (fun r => r.userId == uid && r.businessType == bt)).head?

/-- `EntitlementRepository.GetActiveByUserIDAndSource` over the merged store:
newest active row of the user with the given business type. -/
def getActiveByUserAndBusinessType (db : VPNStore) (uid bt : String) : Option VPNProvision :=
  (db.filter (fun r => r.userId == uid && r.businessType == bt && r.status == "active")).head?

/-- `VPNProvisionRepository.MarkNotCurrent`: `SET is_current = FALSE,
status = 'converted' WHERE id = $1`. -/
def markNotCurrent (db : VPNStore) (pid : String) : VPNStore :=
  db.map (fun r => if r.id == pid then { r with isCurrent := false, status := "converted" } else r)

/-- `VPNProvisionRepository.Update`: replace the row with the same id by the
given full record. -/
def updateRow (db : VPNStore) (vp : VPNProvision) : VPNStore :=
  db.map (fun r => if r.id == vp.id then vp else r)

/-- `models.MapPlanToServiceTier`. -/
def mapPlanToServiceTier (planTier : String) : String :=
  if planTier == "basic" then "standard"
  else if planTier == "premium" then "premium"
  else if planTier == "unlimited" then "premium"
  else "standard"

/-- `VPNService.calculateTrafficLimit`: explicit override wins; otherwise a
fixed table keyed by plan tier. -/
def calculateTrafficLimit (planTier : String) (override : Int) : Int :=
  if override > 0 then override
  else if planTier == "unlimited" then 10000 * GB
  else if planTier == "premium" then 500 * GB
  else if planTier == "standard" then 200 * GB
  else if planTier == "basic" then 50 * GB
  else 100 * GB

/-- `VPNService.calculateExpireDays`: 30 for `apple`/`google`, the requested
days for other channels, defaulting to 30 when not positive. -/
def calculateExpireDays (channel : String) (requestedDays : Int) : Int :=
  if channel == "apple" || channel == "google" then 30
  else if requestedDays > 0 then requestedDays
  else 30

/-- `VPNService.calculateExpireAt`: a fresh period of `days` from now
(days clamped to 30 when not positive). -/
def calculateExpireAt (now : Int) (days : Int) : Int :=
  let d := if days ≤ 0 then 30 else days
  now + d * secondsPerDay

/-- The VPN manager user record as the orchestrator reads it
(`client.VPNUserInfo`): `expireAt` is `none` when the reported `expire_at`
string is empty or fails to parse as RFC3339. -/
structure OtunUserInfo where
  expireAt : Option Int
deriving DecidableEq

/-- The sparse body of `client.UpdateVPNUserRequest`. -/
structure UpdateVPNUserArgs where
  trafficLimit : Int := 0
  expireAt : Option Int := none
  enabled : Option Bool := none
deriving DecidableEq

/-- The body of `client.CreateVPNUserRequest`. -/
structure CreateVPNUserArgs where
  uuid : String
  email : String
  authUserId : String
  ssPassword : List Char
  trafficLimit : Int
  expireAt : Int
  serviceTier : String
deriving DecidableEq

/-- One call made to the VPN manager (otun-manager) API. -/
inductive OtunCall where
  | getUser (uuid : String)
  | updateUser (uuid : String) (args : UpdateVPNUserArgs)
  | createUser (args : CreateVPNUserArgs)
  | deleteUser (uuid : String)
  | syncUser (uuid : String)
deriving DecidableEq

/-- The VPN manager as an oracle: the outcome each call would have.
`createUserResult` returns the UUID field of the creation response. -/
structure OtunClient where
  getUserResult : String → Except Unit OtunUserInfo
  updateUserResult : String → UpdateVPNUserArgs → Except Unit Unit
  createUserResult : CreateVPNUserArgs → Except Unit String
  syncUserResult : String → Except Unit Unit

/-- `VPNService.calculateExpireAtWithStacking`: fetch the user's current
`expire_at` from the VPN manager; if it is in the future, stack the new days
on top; on lookup failure, empty or unparseable `expire_at`, or an already
past `expire_at`, start a fresh period from now. -/
def calculateExpireAtWithStacking (otun : OtunClient) (vpnUserId : String)
    (now : Int) (days : Int) : Int :=
  let d := if days ≤ 0 then 30 else days
  match otun.getUserResult vpnUserId with
  | .error _ => now + d * secondsPerDay
  | .ok info =>
    match info.expireAt with
    | none => now + d * secondsPerDay
    | some t => if t > now then t + d * secondsPerDay else now + d * secondsPerDay

/-- `models.ProvisionRequest` (the fields the VPN provisioner reads). -/
structure ProvisionRequest where
  subscriptionId : String
  userId : String
  userEmail : String
  channel : String
  businessType : String
  planTier : String
  region : String
  trafficLimit : Int
  expireDays : Int
deriving DecidableEq

/-- `models.ProvisionResponse` (fields used by both provisioners). -/
structure ProvisionResponse where
  resourceId : String
  status : String
  vpnUserId : String := ""
  estimatedReadySeconds : Int := 0
  message : String
deriving DecidableEq

/-- Result of one `ProvisionVPNUser` run: the returned value or error, the
final store, and the trace of VPN manager calls made. -/
structure VPNProvisionOutcome where
  result : Except String ProvisionResponse
  db : VPNStore
  calls : List OtunCall
deriving DecidableEq

/-- The idempotency gate of `ProvisionVPNUser`: the existing provision of the
request's subscription, when it is `active` with a non-null `otun_uuid`. -/
def idempotentHit (db : VPNStore) (req : ProvisionRequest) : Option VPNProvision :=
  if req.subscriptionId == "" then none
  else
    match getBySubscriptionID db req.subscriptionId with
    | some p => if p.status == "active" && p.otunUUID.isSome then some p else none
    | none => none

/-- The renewal gate of `ProvisionVPNUser`: the current provision of the user
together with its `otun_uuid`, when that uuid is present and non-empty. -/
def renewalUUID : Option VPNProvision → Option (VPNProvision × String)
  | some ex =>
    match ex.otunUUID with
    | some u => if u == "" then none else some (ex, u)
    | none => none
  | none => none

/-- `VPNService.ProvisionVPNUser`.  Parameters beyond the request: the store,
the VPN manager oracle, the current time, the two fresh UUIDs the handler may
draw (`uuid.New()` for the provision row id and for a new VPN user id), the
generated Shadowsocks password, and whether the store insert succeeds. -/
def provisionVPNUser (db : VPNStore) (req : ProvisionRequest) (otun : OtunClient)
    (now : Int) (freshProvisionId freshVpnUserId : String) (ssPassword : List Char)
    (createOk : Bool) : VPNProvisionOutcome :=
  match idempotentHit db req with
  | some p =>
    { result := .ok { resourceId := p.id, status := "active",
                      vpnUserId := p.otunUUID.getD "",
                      message := "Already provisioned (idempotent)" },
      db := db, calls := [] }
  | none =>
    let businessType := if req.businessType == "" then "subscription" else req.businessType
    let serviceTier := mapPlanToServiceTier req.planTier
    let existing := getCurrentByUserAnyStatus db req.userId
    match renewalUUID existing with
    | some (ex, vpnUserId) =>
      -- Renewal scenario: update expire_at and traffic_limit.
      let expireDays := calculateExpireDays req.channel req.expireDays
      let trafficLimit := calculateTrafficLimit req.planTier req.trafficLimit
      let stacked : Int × List OtunCall :=
        if req.channel == "apple" || req.channel == "google" ||
           req.channel == "trial" || req.channel == "gift" then
          (calculateExpireAt now expireDays, [])
        else if ex.channel == "trial" || ex.channel == "gift" then
          (calculateExpireAt now expireDays, [])
        else
          (calculateExpireAtWithStacking otun vpnUserId now expireDays,
           [OtunCall.getUser vpnUserId])
      let expireAt := stacked.1
      let updArgs : UpdateVPNUserArgs :=
        { trafficLimit := trafficLimit, expireAt := some expireAt, enabled := some true }
      -- UpdateUser failure is only warned about; execution continues.
      let calls := stacked.2 ++ [OtunCall.updateUser vpnUserId updArgs]
      if ex.channel != req.channel then
        -- Channel changed: preserve the old record as history, insert a new one.
        let db1 := markNotCurrent db ex.id
        let newVP : VPNProvision :=
          { id := freshProvisionId, userId := req.userId,
            subscriptionId := req.subscriptionId, channel := req.channel,
            businessType := businessType, serviceTier := serviceTier,
            otunUUID := ex.otunUUID, planTier := req.planTier, status := "active",
            trafficLimit := trafficLimit, trafficUsed := 0,
            expireAt := some expireAt, email := req.userEmail,
            deviceId := "", grantedBy := "", note := "", isCurrent := true }
        -- Create failure is only warned about; the response is returned anyway.
        let db2 := if createOk then newVP :: db1 else db1
        { result := .ok { resourceId := freshProvisionId, status := "active",
                          vpnUserId := vpnUserId,
                          message := "VPN user updated (channel upgrade)" },
          db := db2, calls := calls }
      else
        -- Same channel renewal: update the existing record in place.
        let ex' : VPNProvision :=
          { ex with trafficLimit := trafficLimit, subscriptionId := req.subscriptionId,
                    businessType := businessType, serviceTier := serviceTier,
                    planTier := req.planTier, status := "active" }
        { result := .ok { resourceId := ex.id, status := "active",
                          vpnUserId := vpnUserId,
                          message := "VPN user updated (renewal)" },
          db := updateRow db ex', calls := calls }
    | none =>
      let trafficLimit := calculateTrafficLimit req.planTier req.trafficLimit
      let expireDays := calculateExpireDays req.channel req.expireDays
      let expireAt := calculateExpireAt now expireDays
      let afterUser :
          Except (String × List OtunCall) (String × VPNStore × List OtunCall) :=
        match getOtunUUIDByUser db req.userId with
        | some u =>
          if u == "" then
            -- Mirrors the Go non-empty re-check; an empty uuid falls through
            -- to creation (unreachable given the lookup filter).
            match otun.createUserResult
                { uuid := freshVpnUserId, email := req.userEmail,
                  authUserId := req.userId, ssPassword := ssPassword,
                  trafficLimit := trafficLimit, expireAt := expireAt,
                  serviceTier := serviceTier } with
            | .error _ =>
              .error ("failed to create VPN user in otun-manager",
                      [OtunCall.createUser
                        { uuid := freshVpnUserId, email := req.userEmail,
                          authUserId := req.userId, ssPassword := ssPassword,
                          trafficLimit := trafficLimit, expireAt := expireAt,
                          serviceTier := serviceTier }])
            | .ok respUUID =>
              .ok ((if respUUID == "" then freshVpnUserId else respUUID), db,
                   [OtunCall.createUser
                     { uuid := freshVpnUserId, email := req.userEmail,
                       authUserId := req.userId, ssPassword := ssPassword,
                       trafficLimit := trafficLimit, expireAt := expireAt,
                       serviceTier := serviceTier }])
          else
            -- Reuse the existing otun_uuid (trial to purchase conversion).
            let updArgs : UpdateVPNUserArgs :=
              { trafficLimit := trafficLimit, expireAt := some expireAt,
                enabled := some true }
            match otun.updateUserResult u updArgs with
            | .error _ =>
              .error ("failed to update existing VPN user",
                      [OtunCall.updateUser u updArgs])
            | .ok _ =>
              let db1 :=
                match existing with
                | some ex => markNotCurrent db ex.id
                | none => db
              .ok (u, db1, [OtunCall.updateUser u updArgs])
        | none =>
          match otun.createUserResult
              { uuid := freshVpnUserId, email := req.userEmail,
                authUserId := req.userId, ssPassword := ssPassword,
                trafficLimit := trafficLimit, expireAt := expireAt,
                serviceTier := serviceTier } with
          | .error _ =>
            .error ("failed to create VPN user in otun-manager",
                    [OtunCall.createUser
                      { uuid := freshVpnUserId, email := req.userEmail,
                        authUserId := req.userId, ssPassword := ssPassword,
                        trafficLimit := trafficLimit, expireAt := expireAt,
                        serviceTier := serviceTier }])
          | .ok respUUID =>
            .ok ((if respUUID == "" then freshVpnUserId else respUUID), db,
                 [OtunCall.createUser
                   { uuid := freshVpnUserId, email := req.userEmail,
                     authUserId := req.userId, ssPassword := ssPassword,
                     trafficLimit := trafficLimit, expireAt := expireAt,
                     serviceTier := serviceTier }])
      match afterUser with
      | .error pair => { result := .error pair.1, db := db, calls := pair.2 }
      | .ok triple =>
        let actualVPNUserId := triple.1
        let db1 := triple.2.1
        let callsSoFar := triple.2.2
        let vp : VPNProvision :=
          { id := freshProvisionId, userId := req.userId,
            subscriptionId := req.subscriptionId, channel := req.channel,
            businessType := businessType, serviceTier := serviceTier,
            otunUUID := some actualVPNUserId, planTier := req.planTier,
            status := "active", trafficLimit := trafficLimit, trafficUsed := 0,
            expireAt := some expireAt, email := req.userEmail,
            deviceId := "", grantedBy := "", note := "", isCurrent := true }
        if createOk then
          { result := .ok { resourceId := freshProvisionId, status := "active",
                            vpnUserId := actualVPNUserId,
                            message := "VPN user created successfully" },
            db := vp :: db1, calls := callsSoFar }
        else
          -- Compensation: delete the VPN user when the store insert fails.
          { result := .error "failed to save vpn provision",
            db := db1, calls := callsSoFar ++ [OtunCall.deleteUser actualVPNUserId] }

/-! ## Entitlement engine (`internal/service/entitlement_service.go`)

Per `cmd/api/main.go` the entitlement engine runs over the same VPN
provision store as the VPN provisioner; the old `entitlements` table it is
phrased against is dropped by migration 006 and merged into
`vpn_provisions` (`source` becomes `business_type`). -/

/-- The trial section of the configuration (`config.TrialConfig`). -/
structure TrialConfig where
  enabled : Bool
  durationHours : Int
  trafficGB : Int
deriving DecidableEq

/-- `models.ActivateTrialResponse` (fields the checked claims read). -/
structure ActivateTrialResponse where
  uuid : String
  isTrial : Bool
  trafficLimit : Int
  expireAt : Int
  enabled : Bool
deriving DecidableEq

/-- Result of one `ActivateTrial` run. -/
structure TrialOutcome where
  result : Except String ActivateTrialResponse
  db : VPNStore
  calls : List OtunCall
deriving DecidableEq

/-- The shared reuse-or-create step of `ActivateTrial` and `GiftEntitlement`:
if the user already has an `otun_uuid`, update that VPN user (hard failure on
error) and best-effort sync; otherwise create a new VPN user (hard failure on
error) and best-effort sync.  Returns the resulting `otun_uuid` and the call
trace, or the error message with the calls made. -/
def ensureVpnUser (db : VPNStore) (userId email : String) (otun : OtunClient)
    (trafficLimit expireAt : Int) (serviceTier : String)
    (freshVpnUserId : String) (ssPassword : List Char)
    (updateErrMsg createErrMsg : String) :
    Except (String × List OtunCall) (String × List OtunCall) :=
  match getOtunUUIDByUser db userId with
  | some u =>
    if u == "" then
      -- Mirrors the Go non-empty re-check (unreachable given the lookup filter).
      match otun.createUserResult
          { uuid := freshVpnUserId, email := email, authUserId := userId,
            ssPassword := ssPassword, trafficLimit := trafficLimit,
            expireAt := expireAt, serviceTier := serviceTier } with
      | .error _ =>
        .error (createErrMsg,
                [OtunCall.createUser
                  { uuid := freshVpnUserId, email := email, authUserId := userId,
                    ssPassword := ssPassword, trafficLimit := trafficLimit,
                    expireAt := expireAt, serviceTier := serviceTier }])
      | .ok respUUID =>
        .ok (respUUID,
             [OtunCall.createUser
               { uuid := freshVpnUserId, email := email, authUserId := userId,
                 ssPassword := ssPassword, trafficLimit := trafficLimit,
                 expireAt := expireAt, serviceTier := serviceTier },
              OtunCall.syncUser respUUID])
    else
      let updArgs : UpdateVPNUserArgs :=
        { trafficLimit := trafficLimit, expireAt := some expireAt, enabled := some true }
      match otun.updateUserResult u updArgs with
      | .error _ => .error (updateErrMsg, [OtunCall.updateUser u updArgs])
      | .ok _ => .ok (u, [OtunCall.updateUser u updArgs, OtunCall.syncUser u])
  | none =>
    match otun.createUserResult
        { uuid := freshVpnUserId, email := email, authUserId := userId,
          ssPassword := ssPassword, trafficLimit := trafficLimit,
          expireAt := expireAt, serviceTier := serviceTier } with
    | .error _ =>
      .error (createErrMsg,
              [OtunCall.createUser
                { uuid := freshVpnUserId, email := email, authUserId := userId,
                  ssPassword := ssPassword, trafficLimit := trafficLimit,
                  expireAt := expireAt, serviceTier := serviceTier }])
    | .ok respUUID =>
      .ok (respUUID,
           [OtunCall.createUser
             { uuid := freshVpnUserId, email := email, authUserId := userId,
               ssPassword := ssPassword, trafficLimit := trafficLimit,
               expireAt := expireAt, serviceTier := serviceTier },
            OtunCall.syncUser respUUID])

/-- `EntitlementService.ActivateTrial`.  The email and device existence
checks are injected as `Except`-valued answers so that database query errors
(`.error ()`) can be distinguished from definite answers (`.ok b`); the Go
code logs a warning and continues on a query error. -/
def activateTrial (db : VPNStore) (cfg : TrialConfig)
    (userId email deviceId : String)
    (emailCheck deviceCheck : Except Unit Bool) (otun : OtunClient) (now : Int)
    (freshEntitlementId freshVpnUserId : String) (ssPassword : List Char)
    (createOk : Bool) : TrialOutcome :=
  if !cfg.enabled then
    { result := .error "trial is not available", db := db, calls := [] }
  else if (getByUserAndBusinessType db userId "trial").isSome then
    { result := .error "trial already used", db := db, calls := [] }
  else if email != "" &&
          (match emailCheck with | .ok true => true | _ => false) then
    { result := .error "trial already used", db := db, calls := [] }
  else if (match deviceCheck with | .ok true => true | _ => false) then
    { result := .error "trial already used", db := db, calls := [] }
  else if (getActiveByUserAndBusinessType db userId "purchase").isSome then
    { result := .error "user already has an active subscription", db := db, calls := [] }
  else
    let trafficLimit := cfg.trafficGB * GB
    let expireAt := now + cfg.durationHours * secondsPerHour
    match ensureVpnUser db userId email otun trafficLimit expireAt "standard"
        freshVpnUserId ssPassword
        "failed to update VPN user" "failed to create VPN user" with
    | .error pair => { result := .error pair.1, db := db, calls := pair.2 }
    | .ok pair =>
      let otunUUID := pair.1
      let row : VPNProvision :=
        { id := freshEntitlementId, userId := userId, subscriptionId := "",
          channel := "", businessType := "trial", serviceTier := "standard",
          otunUUID := some otunUUID, planTier := "", status := "active",
          trafficLimit := trafficLimit, trafficUsed := 0,
          expireAt := some expireAt, email := email, deviceId := deviceId,
          grantedBy := "system", note := "", isCurrent := true }
      if createOk then
        { result := .ok { uuid := otunUUID, isTrial := true,
                          trafficLimit := trafficLimit, expireAt := expireAt,
                          enabled := true },
          db := row :: db, calls := pair.2 }
      else
        { result := .error "failed to save entitlement", db := db, calls := pair.2 }

/-- `models.GiftEntitlementRequest`. -/
structure GiftEntitlementRequest where
  userId : String
  email : String
  trafficGB : Int
  durationDays : Int
  serviceTier : String
  note : String
deriving DecidableEq

/-- `models.GiftEntitlementResponse` (fields the checked claims read). -/
structure GiftEntitlementResponse where
  entitlementId : String
  otunUUID : String
  trafficLimit : Int
  expireAt : Int
deriving DecidableEq

/-- Result of one `GiftEntitlement` run. -/
structure GiftOutcome where
  result : Except String GiftEntitlementResponse
  db : VPNStore
  calls : List OtunCall
deriving DecidableEq

/-- `EntitlementService.GiftEntitlement`: like a trial but with no abuse
checks; `business_type = gift`, `granted_by = admin`. -/
def giftEntitlement (db : VPNStore) (req : GiftEntitlementRequest)
    (otun : OtunClient) (now : Int)
    (freshEntitlementId freshVpnUserId : String) (ssPassword : List Char)
    (createOk : Bool) : GiftOutcome :=
  let trafficLimit := req.trafficGB * GB
  let expireAt := now + req.durationDays * secondsPerDay
  let serviceTier := if req.serviceTier == "" then "standard" else req.serviceTier
  match ensureVpnUser db req.userId req.email otun trafficLimit expireAt serviceTier
      freshVpnUserId ssPassword
      "failed to update VPN user" "failed to create VPN user" with
  | .error pair => { result := .error pair.1, db := db, calls := pair.2 }
  | .ok pair =>
    let otunUUID := pair.1
    let row : VPNProvision :=
      { id := freshEntitlementId, userId := req.userId, subscriptionId := "",
        channel := "", businessType := "gift", serviceTier := serviceTier,
        otunUUID := some otunUUID, planTier := "", status := "active",
        trafficLimit := trafficLimit, trafficUsed := 0,
        expireAt := some expireAt, email := req.email, deviceId := "",
        grantedBy := "admin", note := req.note, isCurrent := true }
    if createOk then
      { result := .ok { entitlementId := freshEntitlementId, otunUUID := otunUUID,
                        trafficLimit := trafficLimit, expireAt := expireAt },
        db := row :: db, calls := pair.2 }
    else
      { result := .error "failed to save entitlement", db := db, calls := pair.2 }

/-! ## UpdateVPNUser (`internal/service/vpn_service.go`) -/

/-- `models.UpdateVPNUserRequest` as received by `UpdateVPNUser`. -/
structure UpdateVPNUserRequest where
  trafficLimit : Int
  extendDays : Int
  planTier : String
deriving DecidableEq

/-- `VPNProvisionRepository.GetByID` over the store. -/
def vpnGetByID (db : VPNStore) (pid : String) : Option VPNProvision :=
  (db.filter (fun r => r.id == pid)).head?

/-- Result of one `UpdateVPNUser` run. -/
structure UpdateVPNUserOutcome where
  result : Except String Unit
  db : VPNStore
  calls : List OtunCall
deriving DecidableEq

/-- `VPNService.UpdateVPNUser`: load the provision, read the current user
from the VPN manager, apply the non-zero fields, and only when something
changed propagate to the VPN manager and then the store. -/
def updateVPNUser (db : VPNStore) (provisionId : String)
    (req : UpdateVPNUserRequest) (otun : OtunClient) (now : Int)
    (repoUpdateOk : Bool) : UpdateVPNUserOutcome :=
  match vpnGetByID db provisionId with
  | none => { result := .error "vpn provision not found", db := db, calls := [] }
  | some vp =>
    match vp.otunUUID with
    | none => { result := .error "VPN user ID not found in provision", db := db, calls := [] }
    | some u =>
      if u == "" then
        { result := .error "VPN user ID not found in provision", db := db, calls := [] }
      else
        match otun.getUserResult u with
        | .error _ =>
          { result := .error "failed to get VPN user from otun-manager",
            db := db, calls := [OtunCall.getUser u] }
        | .ok userInfo =>
          -- Accumulate the sparse update request exactly as the Go code does.
          let step1 : UpdateVPNUserArgs × VPNProvision × Bool :=
            if req.trafficLimit > 0 then
              ({ trafficLimit := req.trafficLimit },
               { vp with trafficLimit := req.trafficLimit }, true)
            else
              ({}, vp, false)
          let step2 : UpdateVPNUserArgs × VPNProvision × Bool :=
            if req.extendDays > 0 then
              -- time.Parse failure yields the zero time, which is before now.
              let currentExpire :=
                match userInfo.expireAt with
                | some t => if t < now then now else t
                | none => now
              ({ step1.1 with expireAt := some (currentExpire + req.extendDays * secondsPerDay) },
               step1.2.1, true)
            else
              (step1.1, step1.2.1, step1.2.2)
          let step3 : UpdateVPNUserArgs × VPNProvision × Bool :=
            if req.planTier != "" && req.planTier != vp.planTier then
              let vp1 := step2.2.1
              let vp2 : VPNProvision :=
                { vp1 with planTier := req.planTier,
                           serviceTier := mapPlanToServiceTier req.planTier }
              if req.trafficLimit == 0 then
                let newLimit := calculateTrafficLimit req.planTier 0
                ({ step2.1 with trafficLimit := newLimit },
                 { vp2 with trafficLimit := newLimit }, true)
              else
                (step2.1, vp2, true)
            else
              (step2.1, step2.2.1, step2.2.2)
          if !step3.2.2 then
            { result := .ok (), db := db, calls := [OtunCall.getUser u] }
          else
            match otun.updateUserResult u step3.1 with
            | .error _ =>
              { result := .error "failed to update VPN user in otun-manager",
                db := db, calls := [OtunCall.getUser u, OtunCall.updateUser u step3.1] }
            | .ok _ =>
              if repoUpdateOk then
                { result := .ok (), db := updateRow db step3.2.1,
                  calls := [OtunCall.getUser u, OtunCall.updateUser u step3.1] }
              else
                { result := .error "failed to update vpn provision",
                  db := db, calls := [OtunCall.getUser u, OtunCall.updateUser u step3.1] }

/-! ## Hosting provisioner (`internal/service/provision_service.go`) -/

/-- A row of `fulfillment.hosting_provisions` (`models.HostingProvision`);
timestamps in seconds, nullable columns as `Option`. -/
structure HostingProvision where
  id : String
  subscriptionId : String
  userId : String
  channel : String
  hostingNodeId : String
  provider : String
  region : String
  status : String
  errorMessage : Option String
  planTier : String
  trafficLimit : Int
  trafficUsed : Int
  readyAt : Option Int
  deletedAt : Option Int
deriving DecidableEq

/-- The hosting provision store, newest first. -/
abbrev HostingStore := List HostingProvision

/-- `HostingProvisionRepository.GetActiveByUser`: newest row of the user with
status outside of deleted and failed and `deleted_at IS NULL`. -/
def hGetActiveByUser (db : HostingStore) (uid : String) : Option HostingProvision :=
  (db.filter (fun r =>
    r.userId == uid && r.status != "deleted" && r.status != "failed" &&
    r.deletedAt.isNone)).head?

/-- `HostingProvisionRepository.GetByID`: the row with the given id. -/
def hGetByID (db : HostingStore) (pid : String) : Option HostingProvision :=
  (db.filter (fun r => r.id == pid)).head?

/-- `HostingProvisionRepository.GetBySubscriptionID`: all rows of the
subscription with `deleted_at IS NULL`, newest first. -/
def hGetBySubscriptionID (db : HostingStore) (sid : String) : HostingStore :=
  db.filter (fun r => r.subscriptionId == sid && r.deletedAt.isNone)

/-- `HostingProvisionRepository.UpdateStatus`. -/
def hUpdateStatus (db : HostingStore) (pid st : String) : HostingStore :=
  db.map (fun r => if r.id == pid then { r with status := st } else r)

/-- `HostingProvisionRepository.Update`: replace the row with the same id. -/
def hUpdateRow (db : HostingStore) (hp : HostingProvision) : HostingStore :=
  db.map (fun r => if r.id == hp.id then hp else r)

/-- One call made to the hosting provider admin API. -/
inductive HostingCall where
  | createNode (region bundleId : String)
  | getNode (nodeId : String)
  | deleteNode (nodeId : String)
deriving DecidableEq

/-- Result of the synchronous part of hosting `Provision`. -/
structure HostingProvisionOutcome where
  result : Except String ProvisionResponse
  db : HostingStore
  spawnedAsync : Bool
deriving DecidableEq

/-- `ProvisionService.Provision` (synchronous part): default the region,
reject when the user already has an active hosting provision, insert a
`pending` row, spawn the async task and answer `pending` with an estimate of
300 seconds. -/
def provisionHosting (db : HostingStore) (req : ProvisionRequest)
    (defaultRegion cloudProvider : String) (freshId : String)
    (createOk : Bool) : HostingProvisionOutcome :=
  let region := if req.region == "" then defaultRegion else req.region
  match hGetActiveByUser db req.userId with
  | some _ =>
    { result := .error "user already has an active hosting_node resource",
      db := db, spawnedAsync := false }
  | none =>
    let hp : HostingProvision :=
      { id := freshId, subscriptionId := req.subscriptionId, userId := req.userId,
        channel := req.channel, hostingNodeId := "", provider := cloudProvider,
        region := region, status := "pending", errorMessage := none,
        planTier := req.planTier, trafficLimit := req.trafficLimit,
        trafficUsed := 0, readyAt := none, deletedAt := none }
    if createOk then
      { result := .ok { resourceId := freshId, status := "pending",
                        estimatedReadySeconds := 300,
                        message := "Provisioning started" },
        db := hp :: db, spawnedAsync := true }
    else
      { result := .error "create hosting provision", db := db, spawnedAsync := false }

/-- `models.DeprovisionRequest`. -/
structure DeprovisionRequest where
  subscriptionId : String
  resourceId : String
  reason : String
deriving DecidableEq

/-- `models.DeprovisionResponse`. -/
structure DeprovisionResponse where
  resourceId : String
  status : String
  message : String
deriving DecidableEq

/-- Result of one `Deprovision` run, with its async part inlined. -/
structure DeprovisionOutcome where
  result : Except String DeprovisionResponse
  db : HostingStore
  calls : List HostingCall
deriving DecidableEq

/-- `ProvisionService.Deprovision` with `deprovisionAsync` inlined: resolve
the target by `resource_id`, or else by the newest non-deleted row of the
subscription; on no match answer a not-found error.  The async part marks
the row `stopping`, best-effort deletes the external node when one is
recorded, then writes the row back with `status = deleted` and
`deleted_at = now`. -/
def deprovision (db : HostingStore) (req : DeprovisionRequest) (now : Int) :
    DeprovisionOutcome :=
  let target :=
    if req.resourceId != "" then hGetByID db req.resourceId
    else (hGetBySubscriptionID db req.subscriptionId).head?
  match target with
  | none => { result := .error "resource not found", db := db, calls := [] }
  | some hp =>
    let db1 := hUpdateStatus db hp.id "stopping"
    let calls :=
      if hp.hostingNodeId != "" then [HostingCall.deleteNode hp.hostingNodeId] else []
    let hp' : HostingProvision := { hp with status := "deleted", deletedAt := some now }
    { result := .ok { resourceId := hp.id, status := "stopping",
                      message := "Deprovisioning started" },
      db := hUpdateRow db1 hp', calls := calls }

/-! ## Hosting provider client (`internal/client/hosting_client.go`) -/

/-- The node record returned by `GetNode` (`client.NodeInfo`), restricted to
the fields `WaitForNodeReady` reads. -/
structure NodeInfo where
  publicIP : String
  status : String
  errorMessage : String
deriving DecidableEq

/-- One iteration's view of the world inside the poll loop: either the
`GetNode` call failed transiently, or it returned a node record. -/
inductive PollStep where
  | failedCall
  | node (n : NodeInfo)
deriving DecidableEq

/-- The possible results of `WaitForNodeReady`. -/
inductive WaitResult where
  | ready (n : NodeInfo)
  | nodeFailed (n : NodeInfo) (msg : String)
  | nodeDeleted (msg : String)
  | cancelled
  | timeout
deriving DecidableEq

/-- `HostingClient.WaitForNodeReady`: the poll loop, with the 5-second
intervals until the deadline abstracted as `fuel` remaining iterations and
the i-th iteration's context-cancellation flag and `GetNode` outcome given
by the oracles `ctxDone` and `poll`.  Transient `GetNode` failures are
retried at the next interval; an unknown status also just continues. -/
def waitForNodeReady (ctxDone : Nat → Bool) (poll : Nat → PollStep) :
    Nat → Nat → WaitResult
  | 0, _ => .timeout
  | fuel + 1, i =>
    if ctxDone i then .cancelled
    else
      match poll i with
      | .failedCall => waitForNodeReady ctxDone poll fuel (i + 1)
      | .node n =>
        if n.status == "active" then .ready n
        else if n.status == "failed" then
          .nodeFailed n ("node creation failed: " ++ n.errorMessage)
        else if n.status == "deleted" then .nodeDeleted "node was deleted"
        else waitForNodeReady ctxDone poll fuel (i + 1)

/-! ## generateRandomPassword (`internal/service/vpn_service.go`)

Go strings are embedded as `List Char`.  `hex.EncodeToString` maps each
byte to two lowercase hexadecimal digits; `uuid.New().String()` (the
fallback drawn when `crypto/rand` fails) is a parameter. -/

/-- The lowercase hexadecimal alphabet used by `hex.EncodeToString`
(the Go hextable constant). -/
def hexAlphabet : List Char := "0123456789abcdef".toList

/-- The hexadecimal digit of a value below 16. -/
def hexDigit (n : Nat) : Char := hexAlphabet.getD n '0'

/-- `hex.EncodeToString`: two lowercase hex digits per byte, high nibble
first. -/
def hexEncode (bytes : List Nat) : List Char :=
  bytes.foldr (fun b acc => hexDigit (b / 16) :: hexDigit (b % 16) :: acc) []

/-- `generateRandomPassword(length)`: hex-encode `length` random bytes and
truncate to `length` characters; when the random source fails
(`rngBytes = none`), fall back to the first `length` characters of a freshly
drawn UUID string. -/
def generateRandomPassword (length : Nat) (rngBytes : Option (List Nat))
    (uuidChars : List Char) : List Char :=
  match rngBytes with
  | some bytes => (hexEncode bytes).take length
  | none => uuidChars.take length

/-! ## Auxiliary definitions used to state the properties -/

/-- The update calls within a VPN manager call trace, with their target uuid
and arguments. -/
def updateCallsOf (calls : List OtunCall) : List (String × UpdateVPNUserArgs) :=
  calls.filterMap (fun c =>
    match c with
    | .updateUser u a => some (u, a)
    | _ => none)

/-- Every provision of the user that carries a non-empty `otun_uuid` carries
exactly the uuid `u`. -/
def uuidConsistent (db : VPNStore) (uid u : String) : Prop :=
  ∀ r ∈ db, r.userId = uid → nonEmptyUUID r.otunUUID = true → r.otunUUID = some u

/-! ## Shared lemmas about store lookups -/

theorem mem_of_head?_filter {α : Type} {l : List α} {p : α → Bool} {x : α}
    (h : (l.filter p).head? = some x) : x ∈ l ∧ p x = true := by
  have hx : x ∈ l.filter p := by
    cases hl : l.filter p with
    | nil => rw [hl] at h; cases h
    | cons a t =>
      rw [hl] at h
      simp only [List.head?_cons, Option.some.injEq] at h
      rw [h]
      exact List.mem_cons_self _ _
  exact ⟨(List.mem_filter.mp hx).1, (List.mem_filter.mp hx).2⟩

theorem head?_filter_isSome_of_mem {α : Type} {l : List α} {p : α → Bool} {x : α}
    (hx : x ∈ l) (hp : p x = true) : ∃ y, (l.filter p).head? = some y := by
  have hmem : x ∈ l.filter p := List.mem_filter.mpr ⟨hx, hp⟩
  cases hl : l.filter p with
  | nil => rw [hl] at hmem; cases hmem
  | cons a t => exact ⟨a, by rw [List.head?_cons]⟩

theorem getCurrentByUserAnyStatus_spec {db : VPNStore} {uid : String}
    {ex : VPNProvision} (h : getCurrentByUserAnyStatus db uid = some ex) :
    ex ∈ db ∧ ex.userId = uid ∧ ex.isCurrent = true := by
  have ⟨hmem, hp⟩ := mem_of_head?_filter h
  simp only [Bool.and_eq_true, beq_iff_eq] at hp
  exact ⟨hmem, hp.1, hp.2⟩

theorem getOtunUUIDByUser_spec {db : VPNStore} {uid : String} {u : String}
    (h : getOtunUUIDByUser db uid = some u) :
    ∃ r ∈ db, r.userId = uid ∧ r.otunUUID = some u ∧ u ≠ "" := by
  unfold getOtunUUIDByUser at h
  cases hh : (db.filter (fun r => r.userId == uid && nonEmptyUUID r.otunUUID)).head? with
  | none => rw [hh] at h; cases h
  | some r =>
    rw [hh] at h
    simp only at h
    have ⟨hmem, hp⟩ := mem_of_head?_filter hh
    simp only [Bool.and_eq_true, beq_iff_eq] at hp
    refine ⟨r, hmem, hp.1, h, ?_⟩
    rw [h] at hp
    simpa [nonEmptyUUID, bne_iff_ne] using hp.2

theorem getOtunUUIDByUser_of_consistent {db : VPNStore} {uid u : String}
    (hagree : uuidConsistent db uid u)
    (hex : ∃ r ∈ db, r.userId = uid ∧ nonEmptyUUID r.otunUUID = true) :
    getOtunUUIDByUser db uid = some u := by
  obtain ⟨r, hr, hru, hrne⟩ := hex
  have hp : (fun r : VPNProvision => r.userId == uid && nonEmptyUUID r.otunUUID) r = true := by
    simp only [Bool.and_eq_true, beq_iff_eq]
    exact ⟨hru, hrne⟩
  obtain ⟨y, hy⟩ :=
    head?_filter_isSome_of_mem (p := fun r => r.userId == uid && nonEmptyUUID r.otunUUID) hr hp
  have ⟨hym, hyp⟩ := mem_of_head?_filter hy
  simp only [Bool.and_eq_true, beq_iff_eq] at hyp
  have hyu := hagree y hym hyp.1 hyp.2
  unfold getOtunUUIDByUser
  rw [hy]
  simpa using hyu

theorem renewalUUID_eq_some {o : Option VPNProvision} {ex : VPNProvision}
    {vuid : String} :
    renewalUUID o = some (ex, vuid) ↔
      o = some ex ∧ ex.otunUUID = some vuid ∧ vuid ≠ "" := by
  constructor
  · intro h
    cases o with
    | none => cases h
    | some e =>
      simp only [renewalUUID] at h
      cases he : e.otunUUID with
      | none => rw [he] at h; cases h
      | some w =>
        rw [he] at h
        simp only at h
        by_cases hw : w = ""
        · rw [hw] at h; simp at h
        · have hb : (w == "") = false := by simpa using hw
          rw [hb] at h
          simp only [Bool.false_eq_true, if_false, Option.some.injEq, Prod.mk.injEq] at h
          refine ⟨by rw [h.1], by rw [← h.1, he, h.2], by rw [← h.2]; exact hw⟩
  · rintro ⟨ho, hu, hne⟩
    subst ho
    simp only [renewalUUID]
    rw [hu]
    have hb : (vuid == "") = false := by simpa using hne
    simp only [hb, Bool.false_eq_true, if_false]

/-! ## C5: WaitForNodeReady -/

/-- C5: WaitForNodeReady polls GetNode at the poll interval and returns the
node on status `active`; an error carrying the provider's message on status
`failed`; an error on status `deleted`; the context error on cancellation; a
distinct timeout error when the deadline is exhausted; and a transient
GetNode failure never aborts the loop — the poll is retried at the next
interval. -/
theorem C5_waitForNodeReady_contract (ctxDone : Nat → Bool) (poll : Nat → PollStep)
    (fuel i : Nat) (n : NodeInfo) :
    (waitForNodeReady ctxDone poll 0 i = .timeout) ∧
    (ctxDone i = true → waitForNodeReady ctxDone poll (fuel + 1) i = .cancelled) ∧
    (ctxDone i = false → poll i = .node n → n.status = "active" →
      waitForNodeReady ctxDone poll (fuel + 1) i = .ready n) ∧
    (ctxDone i = false → poll i = .node n → n.status = "failed" →
      waitForNodeReady ctxDone poll (fuel + 1) i =
        .nodeFailed n ("node creation failed: " ++ n.errorMessage)) ∧
    (ctxDone i = false → poll i = .node n → n.status = "deleted" →
      waitForNodeReady ctxDone poll (fuel + 1) i = .nodeDeleted "node was deleted") ∧
    (ctxDone i = false → poll i = .failedCall →
      waitForNodeReady ctxDone poll (fuel + 1) i =
        waitForNodeReady ctxDone poll fuel (i + 1)) := by
  refine ⟨rfl, ?_, ?_, ?_, ?_, ?_⟩
  · intro hc
    simp [waitForNodeReady, hc]
  · intro hc hp hs
    simp [waitForNodeReady, hc, hp, hs]
  · intro hc hp hs
    simp [waitForNodeReady, hc, hp, hs]
  · intro hc hp hs
    simp [waitForNodeReady, hc, hp, hs]
  · intro hc hp
    simp [waitForNodeReady, hc, hp]

/-- Witness for C5 at concrete inputs: a node active at the first poll is
returned as ready, and a transient failure at the first poll just moves the
loop to the next interval. -/
theorem C5_waitForNodeReady_contract_witness :
    waitForNodeReady (fun _ => false) (fun _ => PollStep.node ⟨"1.2.3.4", "active", ""⟩) 3 0 =
      WaitResult.ready ⟨"1.2.3.4", "active", ""⟩ ∧
    waitForNodeReady (fun _ => false) (fun _ => PollStep.failedCall) 3 0 =
      waitForNodeReady (fun _ => false) (fun _ => PollStep.failedCall) 2 1 :=
  ⟨(C5_waitForNodeReady_contract (fun _ => false)
      (fun _ => PollStep.node ⟨"1.2.3.4", "active", ""⟩) 2 0
      ⟨"1.2.3.4", "active", ""⟩).2.2.1 rfl rfl rfl,
   (C5_waitForNodeReady_contract (fun _ => false) (fun _ => PollStep.failedCall) 2 0
      ⟨"", "", ""⟩).2.2.2.2.2 rfl rfl⟩

/-! ## C9: generateRandomPassword -/

theorem hexDigit_mem_hexAlphabet (n : Nat) : hexDigit n ∈ hexAlphabet := by
  unfold hexDigit List.getD
  cases hg : hexAlphabet.get? n with
  | none => simp only [hg, Option.getD_none]; decide
  | some c =>
    simp only [hg, Option.getD_some]
    exact List.get?_mem hg

theorem hexEncode_length (bytes : List Nat) :
    (hexEncode bytes).length = 2 * bytes.length := by
  induction bytes with
  | nil => rfl
  | cons b t ih =>
    simp only [hexEncode, List.foldr_cons, List.length_cons] at ih ⊢
    omega

theorem hexEncode_mem (bytes : List Nat) (c : Char) (hc : c ∈ hexEncode bytes) :
    c ∈ hexAlphabet := by
  induction bytes with
  | nil => cases hc
  | cons b t ih =>
    simp only [hexEncode, List.foldr_cons, List.mem_cons] at hc
    rcases hc with h | h | h
    · rw [h]; exact hexDigit_mem_hexAlphabet _
    · rw [h]; exact hexDigit_mem_hexAlphabet _
    · exact ih h

/-- C9: generateRandomPassword, as invoked with length 16, produces a
16-character lowercase-hex Shadowsocks password from the random bytes; on
RNG failure it falls back to the first 16 characters of the derived UUID
string; in both cases the result is non-empty. -/
theorem C9_generateRandomPassword_spec (bytes : List Nat) (uuidChars : List Char)
    (hlen : bytes.length = 16) (hu : uuidChars.length = 36) :
    (generateRandomPassword 16 (some bytes) uuidChars).length = 16 ∧
    (∀ c ∈ generateRandomPassword 16 (some bytes) uuidChars, c ∈ hexAlphabet) ∧
    generateRandomPassword 16 (some bytes) uuidChars ≠ [] ∧
    generateRandomPassword 16 none uuidChars = uuidChars.take 16 ∧
    (generateRandomPassword 16 none uuidChars).length = 16 ∧
    generateRandomPassword 16 none uuidChars ≠ [] := by
  have hlen16 : (generateRandomPassword 16 (some bytes) uuidChars).length = 16 := by
    simp only [generateRandomPassword, List.length_take, hexEncode_length, hlen]
    decide
  have hfb : (generateRandomPassword 16 none uuidChars).length = 16 := by
    simp only [generateRandomPassword, List.length_take, hu]
    decide
  refine ⟨hlen16, ?_, ?_, rfl, hfb, ?_⟩
  · intro c hc
    simp only [generateRandomPassword] at hc
    exact hexEncode_mem bytes c (List.mem_of_mem_take hc)
  · intro hnil
    rw [hnil] at hlen16
    cases hlen16
  · intro hnil
    rw [hnil] at hfb
    cases hfb

/-- Witness for C9 at a concrete input: sixteen zero bytes and a 36-character
UUID string. -/
theorem C9_generateRandomPassword_spec_witness :
    (generateRandomPassword 16 (some (List.replicate 16 0))
      (List.replicate 36 'a')).length = 16 ∧
    (∀ c ∈ generateRandomPassword 16 (some (List.replicate 16 0))
      (List.replicate 36 'a'), c ∈ hexAlphabet) ∧
    generateRandomPassword 16 (some (List.replicate 16 0)) (List.replicate 36 'a') ≠ [] ∧
    generateRandomPassword 16 none (List.replicate 36 'a') =
      (List.replicate 36 'a').take 16 ∧
    (generateRandomPassword 16 none (List.replicate 36 'a')).length = 16 ∧
    generateRandomPassword 16 none (List.replicate 36 'a') ≠ [] :=
  C9_generateRandomPassword_spec (List.replicate 16 0) (List.replicate 36 'a')
    (by decide) (by decide)

/-! ## C3: subscription idempotency of ProvisionVPNUser -/

/-- C3: when the request carries a non-empty subscription id for which the
existing VPN provision is active with a non-empty otun uuid, ProvisionVPNUser
returns that provision's id and uuid, makes no VPN manager call, and leaves
the store unchanged. -/
theorem C3_subscription_idempotency (db : VPNStore) (req : ProvisionRequest)
    (otun : OtunClient) (now : Int) (fid vid : String) (pw : List Char)
    (createOk : Bool) (p : VPNProvision) (u : String)
    (hsub : req.subscriptionId ≠ "")
    (hget : getBySubscriptionID db req.subscriptionId = some p)
    (hstatus : p.status = "active")
    (huuid : p.otunUUID = some u)
    (_hne : u ≠ "") :
    provisionVPNUser db req otun now fid vid pw createOk =
      { result := .ok { resourceId := p.id, status := "active", vpnUserId := u,
                        message := "Already provisioned (idempotent)" },
        db := db, calls := [] } := by
  have hhit : idempotentHit db req = some p := by
    unfold idempotentHit
    have hb : (req.subscriptionId == "") = false := by simpa using hsub
    rw [hb, hget]
    simp [hstatus, huuid]
  unfold provisionVPNUser
  rw [hhit]
  simp [huuid]

/-- Witness for C3: a store holding one active, current provision of
subscription sub-1 with uuid otun-1; re-provisioning the same subscription
returns it verbatim with no calls and no store change. -/
theorem C3_subscription_idempotency_witness :
    provisionVPNUser
      [⟨"prov-1", "user-1", "sub-1", "stripe", "subscription", "standard",
        some "otun-1", "premium", "active", 0, 0, none, "", "", "", "", true⟩]
      ⟨"sub-1", "user-1", "e", "stripe", "", "premium", "", 0, 30⟩
      ⟨fun _ => .error (), fun _ _ => .error (), fun _ => .error (),
       fun _ => .error ()⟩ 0 "fid" "vid" [] true =
      { result := .ok { resourceId := "prov-1", status := "active",
                        vpnUserId := "otun-1",
                        message := "Already provisioned (idempotent)" },
        db := [⟨"prov-1", "user-1", "sub-1", "stripe", "subscription", "standard",
                some "otun-1", "premium", "active", 0, 0, none, "", "", "", "", true⟩],
        calls := [] } :=
  C3_subscription_idempotency _ _ _ _ _ _ _ _
    ⟨"prov-1", "user-1", "sub-1", "stripe", "subscription", "standard",
     some "otun-1", "premium", "active", 0, 0, none, "", "", "", "", true⟩
    "otun-1" (by decide) (by decide) rfl rfl (by decide)

/-! ## C4: hosting Provision precondition and pending row -/

/-- C4: a hosting Provision request is rejected with an already-exists error
and no new row when the user already holds a provision whose status is
outside of deleted and failed with a null deleted-at; otherwise a new row
with status pending is created and the synchronous response is pending with
an estimate of 300 seconds. -/
theorem C4_hosting_provision (db : HostingStore) (req : ProvisionRequest)
    (defaultRegion cloudProvider freshId : String) (createOk : Bool) :
    ((∃ r ∈ db, r.userId = req.userId ∧ r.status ≠ "deleted" ∧ r.status ≠ "failed" ∧
        r.deletedAt = none) →
      provisionHosting db req defaultRegion cloudProvider freshId createOk =
        { result := .error "user already has an active hosting_node resource",
          db := db, spawnedAsync := false }) ∧
    ((¬ ∃ r ∈ db, r.userId = req.userId ∧ r.status ≠ "deleted" ∧ r.status ≠ "failed" ∧
        r.deletedAt = none) → createOk = true →
      ∃ hp, provisionHosting db req defaultRegion cloudProvider freshId createOk =
        { result := .ok { resourceId := freshId, status := "pending",
                          estimatedReadySeconds := 300,
                          message := "Provisioning started" },
          db := hp :: db, spawnedAsync := true } ∧
        hp.id = freshId ∧ hp.userId = req.userId ∧ hp.status = "pending" ∧
        hp.deletedAt = none) := by
  constructor
  · rintro ⟨r, hr, hru, hs1, hs2, hd⟩
    have hp : (fun r : HostingProvision =>
        r.userId == req.userId && r.status != "deleted" && r.status != "failed" &&
        r.deletedAt.isNone) r = true := by
      simp only [Bool.and_eq_true, beq_iff_eq, bne_iff_ne]
      exact ⟨⟨⟨hru, hs1⟩, hs2⟩, by rw [hd]; rfl⟩
    obtain ⟨y, hy⟩ :=
      head?_filter_isSome_of_mem
        (p := fun r : HostingProvision =>
          r.userId == req.userId && r.status != "deleted" && r.status != "failed" &&
          r.deletedAt.isNone) hr hp
    unfold provisionHosting hGetActiveByUser
    rw [hy]
  · intro hnone hok
    have hmiss : hGetActiveByUser db req.userId = none := by
      unfold hGetActiveByUser
      cases hh : (db.filter (fun r =>
          r.userId == req.userId && r.status != "deleted" && r.status != "failed" &&
          r.deletedAt.isNone)).head? with
      | none => rfl
      | some y =>
        exfalso
        have ⟨hym, hyp⟩ := mem_of_head?_filter hh
        simp only [Bool.and_eq_true, beq_iff_eq, bne_iff_ne,
          Option.isNone_iff_eq_none] at hyp
        exact hnone ⟨y, hym, hyp.1.1.1, hyp.1.1.2, hyp.1.2, hyp.2⟩
    subst hok
    refine ⟨{ id := freshId, subscriptionId := req.subscriptionId, userId := req.userId,
              channel := req.channel, hostingNodeId := "", provider := cloudProvider,
              region := if req.region == "" then defaultRegion else req.region,
              status := "pending", errorMessage := none, planTier := req.planTier,
              trafficLimit := req.trafficLimit, trafficUsed := 0, readyAt := none,
              deletedAt := none }, ?_, rfl, rfl, rfl, rfl⟩
    unfold provisionHosting
    rw [hmiss]
    rfl

/-- Witness for C4: with one active row for user-1 the request is rejected,
and on an empty store a pending row for user-2 is created with a
300-second estimate. -/
theorem C4_hosting_provision_witness :
    (provisionHosting
      [⟨"res-0", "sub-0", "user-1", "stripe", "", "lightsail", "us-east-1",
        "active", none, "basic", 0, 0, none, none⟩]
      ⟨"sub-9", "user-1", "e", "stripe", "", "basic", "", 0, 0⟩
      "us-east-1" "lightsail" "res-9" true =
      { result := .error "user already has an active hosting_node resource",
        db := [⟨"res-0", "sub-0", "user-1", "stripe", "", "lightsail", "us-east-1",
               "active", none, "basic", 0, 0, none, none⟩],
        spawnedAsync := false }) ∧
    (∃ hp, provisionHosting [] ⟨"sub-9", "user-2", "e", "stripe", "", "basic", "", 0, 0⟩
        "us-east-1" "lightsail" "res-9" true =
      { result := .ok { resourceId := "res-9", status := "pending",
                        estimatedReadySeconds := 300,
                        message := "Provisioning started" },
        db := [hp], spawnedAsync := true } ∧
      hp.id = "res-9" ∧ hp.userId = "user-2" ∧ hp.status = "pending" ∧
      hp.deletedAt = none) :=
  ⟨(C4_hosting_provision
      [⟨"res-0", "sub-0", "user-1", "stripe", "", "lightsail", "us-east-1",
        "active", none, "basic", 0, 0, none, none⟩]
      ⟨"sub-9", "user-1", "e", "stripe", "", "basic", "", 0, 0⟩
      "us-east-1" "lightsail" "res-9" true).1
      ⟨⟨"res-0", "sub-0", "user-1", "stripe", "", "lightsail", "us-east-1",
        "active", none, "basic", 0, 0, none, none⟩,
       by decide, rfl, by decide, by decide, rfl⟩,
   (C4_hosting_provision [] ⟨"sub-9", "user-2", "e", "stripe", "", "basic", "", 0, 0⟩
      "us-east-1" "lightsail" "res-9" true).2 (by simp) rfl⟩

/-! ## C7: Deprovision on an already-deleted resource -/

/-- C7 counterexample: the claim asserts that Deprovision on an
already-deleted resource surfaces no error also when addressed by
subscription id, but the subscription lookup excludes soft-deleted rows, so
the call returns a resource-not-found error. -/
theorem C7_deprovision_counterexample :
    (deprovision
      [⟨"res-1", "sub-1", "user-1", "stripe", "node-1", "lightsail", "us-east-1",
        "deleted", none, "basic", 0, 0, none, some 5⟩]
      ⟨"sub-1", "", "cleanup"⟩ 7).result = .error "resource not found" := by
  decide

/-- C7 amended: Deprovision addressed by resource id on an already-deleted
resource surfaces no error, leaves every other row unchanged and leaves the
target with status deleted and deleted-at set (refreshed); addressed by
subscription id, an already-deleted resource cannot be resolved — when every
provision of the subscription is soft-deleted the caller receives a
resource-not-found error and the store is unchanged. -/
theorem C7_deprovision_deleted_amended (db : HostingStore)
    (req : DeprovisionRequest) (now : Int) (hp : HostingProvision) :
    (req.resourceId ≠ "" → hGetByID db req.resourceId = some hp →
      hp.status = "deleted" → hp.deletedAt.isSome = true →
      (deprovision db req now).result =
        .ok { resourceId := hp.id, status := "stopping",
              message := "Deprovisioning started" } ∧
      (∀ r ∈ (deprovision db req now).db, r.id ≠ hp.id → r ∈ db) ∧
      (∀ r ∈ (deprovision db req now).db, r.id = hp.id →
        r.status = "deleted" ∧ r.deletedAt.isSome = true)) ∧
    (req.resourceId = "" →
      (∀ r ∈ db, r.subscriptionId = req.subscriptionId → r.deletedAt.isSome = true) →
      deprovision db req now =
        { result := .error "resource not found", db := db, calls := [] }) := by
  constructor
  · intro hrid hget hst hdel
    have hb : (req.resourceId != "") = true := by simpa using hrid
    have hout : deprovision db req now =
        { result := .ok { resourceId := hp.id, status := "stopping",
                          message := "Deprovisioning started" },
          db := hUpdateRow (hUpdateStatus db hp.id "stopping")
                  { hp with status := "deleted", deletedAt := some now },
          calls := if hp.hostingNodeId != ""
                   then [HostingCall.deleteNode hp.hostingNodeId] else [] } := by
      unfold deprovision
      rw [hb]
      simp only [if_true]
      rw [hget]
    have hdb : ∀ r ∈ (deprovision db req now).db,
        (r.id ≠ hp.id → r ∈ db) ∧
        (r.id = hp.id → r.status = "deleted" ∧ r.deletedAt.isSome = true) := by
      rw [hout]
      intro r hr
      simp only [hUpdateRow, hUpdateStatus] at hr
      obtain ⟨r1, hr1, hr1eq⟩ := List.mem_map.mp hr
      obtain ⟨r0, hr0, hr0eq⟩ := List.mem_map.mp hr1
      by_cases hid : r0.id = hp.id
      · have hb0 : (r0.id == hp.id) = true := by simpa using hid
        simp only [hb0, if_true] at hr0eq
        have hid1 : r1.id = hp.id := by rw [← hr0eq]; exact hid
        have hb1 : (r1.id == hp.id) = true := by simpa using hid1
        simp only [hb1, if_true] at hr1eq
        constructor
        · intro hne
          exact absurd (by rw [← hr1eq]) hne
        · intro _
          rw [← hr1eq]
          exact ⟨rfl, rfl⟩
      · have hb0 : (r0.id == hp.id) = false := by simpa using hid
        simp only [hb0, if_false] at hr0eq
        have hid1 : r1.id ≠ hp.id := by rw [← hr0eq]; exact hid
        have hb1 : (r1.id == hp.id) = false := by simpa using hid1
        simp only [hb1, if_false] at hr1eq
        constructor
        · intro _
          rw [← hr1eq, ← hr0eq]
          exact hr0
        · intro heq
          exact absurd (by rw [← hr1eq] at heq; exact heq) hid1
    refine ⟨by rw [hout], fun r hr => (hdb r hr).1, fun r hr => (hdb r hr).2⟩
  · intro hrid hall
    have hb : (req.resourceId != "") = false := by simp [hrid]
    have hfil : hGetBySubscriptionID db req.subscriptionId = [] := by
      unfold hGetBySubscriptionID
      rw [List.filter_eq_nil_iff]
      intro r hr
      simp only [Bool.and_eq_true, beq_iff_eq, not_and, Option.isNone_iff_eq_none]
      intro hsid
      have := hall r hr hsid
      intro hnone
      rw [hnone] at this
      cases this
    unfold deprovision
    rw [hb]
    simp only [if_false]
    rw [hfil]
    rfl

/-- Witness for the amended C7: re-deprovisioning by resource id an
already-deleted row succeeds with no surfaced error. -/
theorem C7_deprovision_deleted_amended_witness :
    (deprovision
      [⟨"res-2", "sub-2", "user-2", "stripe", "node-2", "lightsail", "us-east-1",
        "deleted", none, "basic", 0, 0, none, some 3⟩]
      ⟨"sub-2", "res-2", "again"⟩ 9).result =
      .ok { resourceId := "res-2", status := "stopping",
            message := "Deprovisioning started" } :=
  ((C7_deprovision_deleted_amended
      [⟨"res-2", "sub-2", "user-2", "stripe", "node-2", "lightsail", "us-east-1",
        "deleted", none, "basic", 0, 0, none, some 3⟩]
      ⟨"sub-2", "res-2", "again"⟩ 9
      ⟨"res-2", "sub-2", "user-2", "stripe", "node-2", "lightsail", "us-east-1",
        "deleted", none, "basic", 0, 0, none, some 3⟩).1
    (by decide) (by decide) rfl rfl).1

/-! ## Lemmas about the expiration helpers and row updates -/

theorem calculateExpireDays_eq (c : String) (rd : Int) :
    calculateExpireDays c rd =
      if c = "apple" ∨ c = "google" then 30 else if rd > 0 then rd else 30 := by
  unfold calculateExpireDays
  by_cases h1 : c = "apple" <;> by_cases h2 : c = "google" <;> simp [h1, h2]

theorem calculateExpireDays_pos (c : String) (rd : Int) :
    0 < calculateExpireDays c rd := by
  unfold calculateExpireDays
  split
  · omega
  · split
    · omega
    · omega

theorem calculateExpireAt_of_pos (now d : Int) (hd : 0 < d) :
    calculateExpireAt now d = now + d * secondsPerDay := by
  unfold calculateExpireAt
  have hdle : ¬ d ≤ 0 := by omega
  simp [hdle]

theorem mem_markNotCurrent {db : VPNStore} {pid : String} {r : VPNProvision}
    (hr : r ∈ markNotCurrent db pid) :
    ∃ r0 ∈ db, r.id = r0.id ∧ r.userId = r0.userId ∧ r.otunUUID = r0.otunUUID ∧
      (r.id = pid → r.isCurrent = false ∧ r.status = "converted") := by
  obtain ⟨r0, hr0, hr0eq⟩ := List.mem_map.mp hr
  by_cases hid : r0.id = pid
  · have hb : (r0.id == pid) = true := by simpa using hid
    simp only [hb, eq_self_iff_true, if_true] at hr0eq
    refine ⟨r0, hr0, by rw [← hr0eq], by rw [← hr0eq], by rw [← hr0eq], ?_⟩
    intro _
    rw [← hr0eq]
    exact ⟨rfl, rfl⟩
  · have hb : (r0.id == pid) = false := by simpa using hid
    simp only [hb, Bool.false_eq_true, if_false] at hr0eq
    refine ⟨r0, hr0, by rw [← hr0eq], by rw [← hr0eq], by rw [← hr0eq], ?_⟩
    intro hpid
    exact absurd (by rw [hr0eq]; exact hpid) hid

theorem mem_updateRow {db : VPNStore} {vp : VPNProvision} {r : VPNProvision}
    (hr : r ∈ updateRow db vp) : r = vp ∨ r ∈ db := by
  obtain ⟨r0, hr0, hr0eq⟩ := List.mem_map.mp hr
  by_cases hid : r0.id = vp.id
  · have hb : (r0.id == vp.id) = true := by simpa using hid
    simp only [hb, eq_self_iff_true, if_true] at hr0eq
    exact Or.inl hr0eq.symm
  · have hb : (r0.id == vp.id) = false := by simpa using hid
    simp only [hb, Bool.false_eq_true, if_false] at hr0eq
    exact Or.inr (hr0eq ▸ hr0)

theorem uuidConsistent_cons {db : VPNStore} {uid u : String} {row : VPNProvision}
    (hagree : uuidConsistent db uid u)
    (hrow : row.userId = uid → nonEmptyUUID row.otunUUID = true → row.otunUUID = some u) :
    uuidConsistent (row :: db) uid u := by
  intro r hr hru hrne
  rcases List.mem_cons.mp hr with h | h
  · subst h
    exact hrow hru hrne
  · exact hagree r h hru hrne

theorem uuidConsistent_markNotCurrent {db : VPNStore} {uid u pid : String}
    (hagree : uuidConsistent db uid u) :
    uuidConsistent (markNotCurrent db pid) uid u := by
  intro r hr hru hrne
  obtain ⟨r0, hr0, hid, huser, huuid, _⟩ := mem_markNotCurrent hr
  rw [huuid]
  rw [huuid] at hrne
  rw [huser] at hru
  exact hagree r0 hr0 hru hrne

theorem uuidConsistent_updateRow {db : VPNStore} {uid u : String} {vp : VPNProvision}
    (hagree : uuidConsistent db uid u)
    (hvp : vp.userId = uid → nonEmptyUUID vp.otunUUID = true → vp.otunUUID = some u) :
    uuidConsistent (updateRow db vp) uid u := by
  intro r hr hru hrne
  rcases mem_updateRow hr with h | h
  · subst h
    exact hvp hru hrne
  · exact hagree r h hru hrne

/-- The optional stacking lookup contributes at most a single GetUser call. -/
theorem mem_stacked_calls {c1 c2 : Bool} {x y z : Int} {v : String} {c : OtunCall}
    (hc : c ∈ (if c1 then (x, ([] : List OtunCall))
               else if c2 then (y, [])
               else (z, [OtunCall.getUser v])).2) :
    c = OtunCall.getUser v := by
  cases c1 <;> cases c2 <;> simp_all

/-! ## C6: ActivateTrial gating and abuse checks -/

/-- C6: ActivateTrial fails when the trial feature is disabled; each abuse
case (existing trial for the user, trial already used by the non-empty
email, trial already used by the device) fails with the single generic
message trial already used; and query errors from the email and device
existence checks do not abort the activation (the run is identical to one
where both checks answered false). -/
theorem C6_activateTrial_checks (db : VPNStore) (cfg : TrialConfig)
    (userId email deviceId : String) (emailCheck deviceCheck : Except Unit Bool)
    (otun : OtunClient) (now : Int) (fid vid : String) (pw : List Char)
    (createOk : Bool) (e : VPNProvision) :
    (cfg.enabled = false →
      activateTrial db cfg userId email deviceId emailCheck deviceCheck otun now
          fid vid pw createOk =
        { result := .error "trial is not available", db := db, calls := [] }) ∧
    (cfg.enabled = true →
      getByUserAndBusinessType db userId "trial" = some e →
      activateTrial db cfg userId email deviceId emailCheck deviceCheck otun now
          fid vid pw createOk =
        { result := .error "trial already used", db := db, calls := [] }) ∧
    (cfg.enabled = true →
      getByUserAndBusinessType db userId "trial" = none →
      email ≠ "" → emailCheck = .ok true →
      activateTrial db cfg userId email deviceId emailCheck deviceCheck otun now
          fid vid pw createOk =
        { result := .error "trial already used", db := db, calls := [] }) ∧
    (cfg.enabled = true →
      getByUserAndBusinessType db userId "trial" = none →
      (email = "" ∨ emailCheck = .ok false ∨ emailCheck = .error ()) →
      deviceCheck = .ok true →
      activateTrial db cfg userId email deviceId emailCheck deviceCheck otun now
          fid vid pw createOk =
        { result := .error "trial already used", db := db, calls := [] }) ∧
    (activateTrial db cfg userId email deviceId (.error ()) (.error ()) otun now
        fid vid pw createOk =
      activateTrial db cfg userId email deviceId (.ok false) (.ok false) otun now
        fid vid pw createOk) := by
  refine ⟨?_, ?_, ?_, ?_, ?_⟩
  · intro hdis
    simp [activateTrial, hdis]
  · intro hen htr
    simp [activateTrial, hen, htr]
  · intro hen htr hmail hchk
    have hb : (email != "") = true := by simpa using hmail
    simp [activateTrial, hen, htr, hb, hchk]
  · intro hen htr hmail hchk
    rcases hmail with h | h | h
    · have hb : (email != "") = false := by simp [h]
      simp [activateTrial, hen, htr, hb, hchk]
    · simp [activateTrial, hen, htr, h, hchk]
    · simp [activateTrial, hen, htr, h, hchk]
  · unfold activateTrial
    cases cfg.enabled <;> simp

/-- Witness for C6 at concrete inputs: disabled config fails; an existing
trial row fails with the generic message; a positive email check fails with
the generic message; a positive device check fails with the generic
message. -/
theorem C6_activateTrial_checks_witness :
    (activateTrial [] ⟨false, 24, 5⟩ "u1" "e1" "d1" (.ok false) (.ok false)
        ⟨fun _ => .error (), fun _ _ => .error (), fun _ => .error (),
         fun _ => .error ()⟩ 0 "f" "v" [] true =
      { result := .error "trial is not available", db := [], calls := [] }) ∧
    (activateTrial
        [⟨"t1", "u1", "", "", "trial", "standard", some "o1", "", "active",
          0, 0, none, "e1", "d1", "system", "", true⟩]
        ⟨true, 24, 5⟩ "u1" "e1" "d1" (.ok false) (.ok false)
        ⟨fun _ => .error (), fun _ _ => .error (), fun _ => .error (),
         fun _ => .error ()⟩ 0 "f" "v" [] true =
      { result := .error "trial already used",
        db := [⟨"t1", "u1", "", "", "trial", "standard", some "o1", "", "active",
               0, 0, none, "e1", "d1", "system", "", true⟩], calls := [] }) ∧
    (activateTrial [] ⟨true, 24, 5⟩ "u1" "e1" "d1" (.ok true) (.ok false)
        ⟨fun _ => .error (), fun _ _ => .error (), fun _ => .error (),
         fun _ => .error ()⟩ 0 "f" "v" [] true =
      { result := .error "trial already used", db := [], calls := [] }) ∧
    (activateTrial [] ⟨true, 24, 5⟩ "u1" "e1" "d1" (.ok false) (.ok true)
        ⟨fun _ => .error (), fun _ _ => .error (), fun _ => .error (),
         fun _ => .error ()⟩ 0 "f" "v" [] true =
      { result := .error "trial already used", db := [], calls := [] }) :=
  ⟨(C6_activateTrial_checks [] ⟨false, 24, 5⟩ "u1" "e1" "d1" (.ok false) (.ok false)
      ⟨fun _ => .error (), fun _ _ => .error (), fun _ => .error (),
       fun _ => .error ()⟩ 0 "f" "v" [] true
      ⟨"t1", "u1", "", "", "trial", "standard", some "o1", "", "active",
       0, 0, none, "e1", "d1", "system", "", true⟩).1 rfl,
   (C6_activateTrial_checks
      [⟨"t1", "u1", "", "", "trial", "standard", some "o1", "", "active",
        0, 0, none, "e1", "d1", "system", "", true⟩]
      ⟨true, 24, 5⟩ "u1" "e1" "d1" (.ok false) (.ok false)
      ⟨fun _ => .error (), fun _ _ => .error (), fun _ => .error (),
       fun _ => .error ()⟩ 0 "f" "v" [] true
      ⟨"t1", "u1", "", "", "trial", "standard", some "o1", "", "active",
       0, 0, none, "e1", "d1", "system", "", true⟩).2.1 rfl (by decide),
   (C6_activateTrial_checks [] ⟨true, 24, 5⟩ "u1" "e1" "d1" (.ok true) (.ok false)
      ⟨fun _ => .error (), fun _ _ => .error (), fun _ => .error (),
       fun _ => .error ()⟩ 0 "f" "v" [] true
      ⟨"t1", "u1", "", "", "trial", "standard", some "o1", "", "active",
       0, 0, none, "e1", "d1", "system", "", true⟩).2.2.1 rfl rfl (by decide) rfl,
   (C6_activateTrial_checks [] ⟨true, 24, 5⟩ "u1" "e1" "d1" (.ok false) (.ok true)
      ⟨fun _ => .error (), fun _ _ => .error (), fun _ => .error (),
       fun _ => .error ()⟩ 0 "f" "v" [] true
      ⟨"t1", "u1", "", "", "trial", "standard", some "o1", "", "active",
       0, 0, none, "e1", "d1", "system", "", true⟩).2.2.2.1 rfl rfl
      (Or.inr (Or.inl rfl)) rfl⟩

/-! ## C8: UpdateVPNUser with all-zero fields -/

/-- C8 counterexample: the claim asserts that UpdateVPNUser with all
zero/empty fields makes no external call to the VPN manager, but the
handler always issues a GetUser read to the VPN manager before the no-op
check, so the call trace is non-empty. -/
theorem C8_updateVPNUser_counterexample :
    ¬ ((updateVPNUser
        [⟨"p1", "u1", "s1", "stripe", "subscription", "standard", some "otun-9",
          "basic", "active", 5, 0, none, "", "", "", "", true⟩]
        "p1" ⟨0, 0, ""⟩
        ⟨fun _ => .ok ⟨some 200⟩, fun _ _ => .ok (), fun _ => .ok "",
         fun _ => .ok ()⟩ 100 true).calls = []) := by
  decide

/-- C8 amended: UpdateVPNUser with all-zero/empty fields (traffic_limit 0,
extend_days 0, and plan_tier empty or equal to the stored one) issues no
mutating call to the VPN manager and leaves the stored provision unchanged,
returning success — but it does first issue one read-only GetUser call to
the VPN manager. -/
theorem C8_updateVPNUser_noop_amended (db : VPNStore) (pid : String)
    (req : UpdateVPNUserRequest) (otun : OtunClient) (now : Int)
    (repoUpdateOk : Bool) (vp : VPNProvision) (u : String) (info : OtunUserInfo)
    (hget : vpnGetByID db pid = some vp)
    (huuid : vp.otunUUID = some u)
    (hne : u ≠ "")
    (hinfo : otun.getUserResult u = .ok info)
    (htl : req.trafficLimit = 0)
    (hext : req.extendDays = 0)
    (hpt : req.planTier = "" ∨ req.planTier = vp.planTier) :
    updateVPNUser db pid req otun now repoUpdateOk =
      { result := .ok (), db := db, calls := [OtunCall.getUser u] } := by
  have hb : (u == "") = false := by simpa using hne
  have htlb : ¬ req.trafficLimit > 0 := by omega
  have hexb : ¬ req.extendDays > 0 := by omega
  have hptb : (req.planTier != "" && req.planTier != vp.planTier) = false := by
    rcases hpt with h | h <;> simp [h]
  unfold updateVPNUser
  rw [hget]
  simp only [huuid, hb, Bool.false_eq_true, if_false, hinfo]
  simp [htlb, hexb, hptb]

/-- Witness for the amended C8 at a concrete input: the no-op update
succeeds, changes nothing, and the only VPN manager call is the read. -/
theorem C8_updateVPNUser_noop_amended_witness :
    updateVPNUser
      [⟨"p1", "u1", "s1", "stripe", "subscription", "standard", some "otun-9",
        "basic", "active", 5, 0, none, "", "", "", "", true⟩]
      "p1" ⟨0, 0, ""⟩
      ⟨fun _ => .ok ⟨some 200⟩, fun _ _ => .ok (), fun _ => .ok "",
       fun _ => .ok ()⟩ 100 true =
      { result := .ok (),
        db := [⟨"p1", "u1", "s1", "stripe", "subscription", "standard", some "otun-9",
               "basic", "active", 5, 0, none, "", "", "", "", true⟩],
        calls := [OtunCall.getUser "otun-9"] } :=
  C8_updateVPNUser_noop_amended _ _ _ _ _ _
    ⟨"p1", "u1", "s1", "stripe", "subscription", "standard", some "otun-9",
     "basic", "active", 5, 0, none, "", "", "", "", true⟩
    "otun-9" ⟨some 200⟩ (by decide) rfl (by decide) rfl rfl rfl (Or.inl rfl)

/-! ## C1: renewal expiration policy of ProvisionVPNUser -/

/-- C1: on a ProvisionVPNUser renewal (current provision with a non-empty
otun uuid, idempotency gate not hit) the UpdateUser call sent to the VPN
manager carries exactly the claimed expire time: a fresh period of d days
from now when the request channel is apple, google, trial or gift, or the
existing provision's channel is trial or gift; otherwise the VPN manager's
current expire time plus d days when that time is in the future, and a
fresh period from now otherwise (also on lookup failure or an absent
expire time); d is 30 for apple/google and the requested days, defaulting
to 30, for other channels. -/
theorem C1_renewal_expire_policy (db : VPNStore) (req : ProvisionRequest)
    (otun : OtunClient) (now : Int) (fid vid : String) (pw : List Char)
    (createOk : Bool) (ex : VPNProvision) (vuid : String) (d e : Int)
    (hhit : idempotentHit db req = none)
    (hcur : getCurrentByUserAnyStatus db req.userId = some ex)
    (huuid : ex.otunUUID = some vuid)
    (hvne : vuid ≠ "")
    (hd : d = if req.channel = "apple" ∨ req.channel = "google" then 30
          else if req.expireDays > 0 then req.expireDays else 30)
    (he : e = if req.channel = "apple" ∨ req.channel = "google" ∨
                 req.channel = "trial" ∨ req.channel = "gift" ∨
                 ex.channel = "trial" ∨ ex.channel = "gift"
              then now + d * secondsPerDay
              else match otun.getUserResult vuid with
                   | .ok info =>
                     match info.expireAt with
                     | some t => if t > now then t + d * secondsPerDay
                                 else now + d * secondsPerDay
                     | none => now + d * secondsPerDay
                   | .error _ => now + d * secondsPerDay) :
    updateCallsOf (provisionVPNUser db req otun now fid vid pw createOk).calls =
      [(vuid, { trafficLimit := calculateTrafficLimit req.planTier req.trafficLimit,
                expireAt := some e, enabled := some true })] := by
  have hren : renewalUUID (getCurrentByUserAnyStatus db req.userId) = some (ex, vuid) :=
    renewalUUID_eq_some.mpr ⟨hcur, huuid, hvne⟩
  have hdays : calculateExpireDays req.channel req.expireDays = d := by
    rw [calculateExpireDays_eq, hd]
  have hdpos : 0 < d := hdays ▸ calculateExpireDays_pos req.channel req.expireDays
  have hdle : ¬ d ≤ 0 := by omega
  subst he
  simp only [provisionVPNUser, hhit, hren]
  cases hb1 : (req.channel == "apple" || req.channel == "google" ||
               req.channel == "trial" || req.channel == "gift") with
  | true =>
    have hcond : req.channel = "apple" ∨ req.channel = "google" ∨
        req.channel = "trial" ∨ req.channel = "gift" ∨
        ex.channel = "trial" ∨ ex.channel = "gift" := by
      simp only [Bool.or_eq_true, beq_iff_eq] at hb1
      tauto
    rw [if_pos hcond]
    cases hch : (ex.channel != req.channel) <;>
      simp [hb1, hch, updateCallsOf, hdays, calculateExpireAt_of_pos now d hdpos]
  | false =>
    cases hb2 : (ex.channel == "trial" || ex.channel == "gift") with
    | true =>
      have hcond : req.channel = "apple" ∨ req.channel = "google" ∨
          req.channel = "trial" ∨ req.channel = "gift" ∨
          ex.channel = "trial" ∨ ex.channel = "gift" := by
        simp only [Bool.or_eq_true, beq_iff_eq] at hb2
        tauto
      rw [if_pos hcond]
      cases hch : (ex.channel != req.channel) <;>
        simp [hb1, hb2, hch, updateCallsOf, hdays, calculateExpireAt_of_pos now d hdpos]
    | false =>
      have hncond : ¬ (req.channel = "apple" ∨ req.channel = "google" ∨
          req.channel = "trial" ∨ req.channel = "gift" ∨
          ex.channel = "trial" ∨ ex.channel = "gift") := by
        simp at hb1 hb2
        tauto
      rw [if_neg hncond]
      cases hch : (ex.channel != req.channel) <;>
        (simp [hb1, hb2, hch, updateCallsOf]
         unfold calculateExpireAtWithStacking
         rw [hdays]
         simp only [hdle, if_false]
         cases hg : otun.getUserResult vuid with
         | error a => rfl
         | ok info =>
           simp only []
           cases hx : info.expireAt with
           | none => rfl
           | some t => rfl)

/-- Witness for C1 at a concrete stacking input: a stripe-to-stripe renewal
where the VPN manager reports a future expire time 1000 receives an
UpdateUser with expire 1000 plus 30 days. -/
theorem C1_renewal_expire_policy_witness :
    updateCallsOf
      (provisionVPNUser
        [⟨"prov-1", "user-1", "sub-0", "stripe", "purchase", "standard",
          some "otun-1", "premium", "active", 0, 0, none, "", "", "", "", true⟩]
        ⟨"sub-1", "user-1", "e", "stripe", "", "premium", "", 0, 30⟩
        ⟨fun _ => .ok ⟨some 1000⟩, fun _ _ => .ok (), fun _ => .ok "",
         fun _ => .ok ()⟩ 0 "fid" "vid" [] true).calls =
      [("otun-1",
        { trafficLimit := 500 * GB, expireAt := some (1000 + 30 * secondsPerDay),
          enabled := some true })] := by
  have happ := C1_renewal_expire_policy
    [⟨"prov-1", "user-1", "sub-0", "stripe", "purchase", "standard",
      some "otun-1", "premium", "active", 0, 0, none, "", "", "", "", true⟩]
    ⟨"sub-1", "user-1", "e", "stripe", "", "premium", "", 0, 30⟩
    ⟨fun _ => .ok ⟨some 1000⟩, fun _ _ => .ok (), fun _ => .ok "",
     fun _ => .ok ()⟩ 0 "fid" "vid" [] true
    ⟨"prov-1", "user-1", "sub-0", "stripe", "purchase", "standard",
     some "otun-1", "premium", "active", 0, 0, none, "", "", "", "", true⟩
    "otun-1" 30 (1000 + 30 * secondsPerDay)
    (by decide) (by decide) rfl (by decide) (by decide) (by decide)
  rw [happ]
  decide

/-! ## C10: channel-upgrade renewal with a failing row insert -/

/-- C10: in the channel-upgrade renewal path of ProvisionVPNUser, when the
insert of the new provision row fails, the old row has already been marked
not-current (converted), the call still returns a success response carrying
the id of the row that was never persisted, the error is not surfaced, and
no compensation (DeleteUser) is attempted. -/
theorem C10_upgrade_create_failure_swallowed (db : VPNStore) (req : ProvisionRequest)
    (otun : OtunClient) (now : Int) (fid vid : String) (pw : List Char)
    (ex : VPNProvision) (vuid : String)
    (hhit : idempotentHit db req = none)
    (hcur : getCurrentByUserAnyStatus db req.userId = some ex)
    (huuid : ex.otunUUID = some vuid)
    (hvne : vuid ≠ "")
    (hch : ex.channel ≠ req.channel)
    (hfresh : ∀ r ∈ db, r.id ≠ fid) :
    (provisionVPNUser db req otun now fid vid pw false).result =
      .ok { resourceId := fid, status := "active", vpnUserId := vuid,
            message := "VPN user updated (channel upgrade)" } ∧
    (∀ r ∈ (provisionVPNUser db req otun now fid vid pw false).db, r.id ≠ fid) ∧
    (∀ r ∈ (provisionVPNUser db req otun now fid vid pw false).db, r.id = ex.id →
      r.isCurrent = false ∧ r.status = "converted") ∧
    (∀ c ∈ (provisionVPNUser db req otun now fid vid pw false).calls,
      ∀ w, c ≠ OtunCall.deleteUser w) := by
  have hren : renewalUUID (getCurrentByUserAnyStatus db req.userId) = some (ex, vuid) :=
    renewalUUID_eq_some.mpr ⟨hcur, huuid, hvne⟩
  have hchb : (ex.channel != req.channel) = true := by simpa using hch
  simp only [provisionVPNUser, hhit, hren, hchb, eq_self_iff_true, if_true,
    Bool.false_eq_true, if_false]
  refine ⟨trivial, ?_, ?_, ?_⟩
  · intro r hr
    obtain ⟨r0, hr0, hid, _, _, _⟩ := mem_markNotCurrent hr
    rw [hid]
    exact hfresh r0 hr0
  · intro r hr hrid
    obtain ⟨_, _, _, _, _, hconv⟩ := mem_markNotCurrent hr
    exact hconv hrid
  · intro c hc w
    rcases List.mem_append.mp hc with h | h
    · rw [mem_stacked_calls h]
      simp
    · simp only [List.mem_singleton] at h
      rw [h]
      simp

/-- Witness for C10: a trial-to-apple upgrade whose row insert fails still
answers success with the id of the row that was never stored. -/
theorem C10_upgrade_create_failure_swallowed_witness :
    (provisionVPNUser
      [⟨"prov-1", "user-1", "", "trial", "trial", "standard", some "otun-1",
        "", "active", 0, 0, none, "", "", "", "", true⟩]
      ⟨"", "user-1", "e", "apple", "subscription", "basic", "", 0, 0⟩
      ⟨fun _ => .ok ⟨none⟩, fun _ _ => .ok (), fun _ => .ok "", fun _ => .ok ()⟩
      0 "new-1" "vid" [] false).result =
      .ok { resourceId := "new-1", status := "active", vpnUserId := "otun-1",
            message := "VPN user updated (channel upgrade)" } :=
  (C10_upgrade_create_failure_swallowed
    [⟨"prov-1", "user-1", "", "trial", "trial", "standard", some "otun-1",
      "", "active", 0, 0, none, "", "", "", "", true⟩]
    ⟨"", "user-1", "e", "apple", "subscription", "basic", "", 0, 0⟩
    ⟨fun _ => .ok ⟨none⟩, fun _ _ => .ok (), fun _ => .ok "", fun _ => .ok ()⟩
    0 "new-1" "vid" []
    ⟨"prov-1", "user-1", "", "trial", "trial", "standard", some "otun-1",
     "", "active", 0, 0, none, "", "", "", "", true⟩
    "otun-1" rfl (by decide) rfl (by decide) (by decide) (by decide)).1

/-! ## C2: otun uuid reuse across provisions -/

theorem ensureVpnUser_reuse {db : VPNStore} {uid u : String}
    (email : String) (otun : OtunClient) (tl ea : Int) (st vid : String)
    (pw : List Char) (m1 m2 : String)
    (hlook : getOtunUUIDByUser db uid = some u)
    (hub : (u == "") = false) :
    ensureVpnUser db uid email otun tl ea st vid pw m1 m2 =
      (match otun.updateUserResult u
          { trafficLimit := tl, expireAt := some ea, enabled := some true } with
       | .error _ =>
         .error (m1, [OtunCall.updateUser u
           { trafficLimit := tl, expireAt := some ea, enabled := some true }])
       | .ok _ =>
         .ok (u, [OtunCall.updateUser u
           { trafficLimit := tl, expireAt := some ea, enabled := some true },
           OtunCall.syncUser u])) := by
  unfold ensureVpnUser
  rw [hlook]
  simp only [hub, Bool.false_eq_true, if_false]

/-- C2: once some provision of a user carries a non-empty otun uuid (and all
such provisions agree on it, as they do from the first one onward), every
store produced by a subsequent ProvisionVPNUser, ActivateTrial or
GiftEntitlement for that user still has all non-empty otun uuids equal to
that same uuid, and none of the three operations ever asks the VPN manager
to create a new identity. -/
theorem C2_otun_uuid_reuse (db : VPNStore) (uid u : String)
    (hagree : uuidConsistent db uid u)
    (hex : ∃ r ∈ db, r.userId = uid ∧ nonEmptyUUID r.otunUUID = true) :
    (∀ (req : ProvisionRequest) (otun : OtunClient) (now : Int) (fid vid : String)
       (pw : List Char) (createOk : Bool), req.userId = uid →
      uuidConsistent (provisionVPNUser db req otun now fid vid pw createOk).db uid u ∧
      (∀ c ∈ (provisionVPNUser db req otun now fid vid pw createOk).calls,
        ∀ a, c ≠ OtunCall.createUser a)) ∧
    (∀ (cfg : TrialConfig) (email deviceId : String)
       (emailCheck deviceCheck : Except Unit Bool) (otun : OtunClient) (now : Int)
       (fid vid : String) (pw : List Char) (createOk : Bool),
      uuidConsistent (activateTrial db cfg uid email deviceId emailCheck deviceCheck
        otun now fid vid pw createOk).db uid u ∧
      (∀ c ∈ (activateTrial db cfg uid email deviceId emailCheck deviceCheck
        otun now fid vid pw createOk).calls, ∀ a, c ≠ OtunCall.createUser a)) ∧
    (∀ (greq : GiftEntitlementRequest) (otun : OtunClient) (now : Int)
       (fid vid : String) (pw : List Char) (createOk : Bool), greq.userId = uid →
      uuidConsistent (giftEntitlement db greq otun now fid vid pw createOk).db uid u ∧
      (∀ c ∈ (giftEntitlement db greq otun now fid vid pw createOk).calls,
        ∀ a, c ≠ OtunCall.createUser a)) := by
  have hune : u ≠ "" := by
    obtain ⟨r, hr, hru, hrne⟩ := hex
    have hrequ := hagree r hr hru hrne
    rw [hrequ] at hrne
    simpa [nonEmptyUUID] using hrne
  have hub : (u == "") = false := by simpa using hune
  refine ⟨?_, ?_, ?_⟩
  · -- ProvisionVPNUser
    intro req otun now fid vid pw createOk hreq
    subst hreq
    have hlook : getOtunUUIDByUser db req.userId = some u :=
      getOtunUUIDByUser_of_consistent hagree hex
    cases hhit : idempotentHit db req with
    | some p =>
      simp only [provisionVPNUser, hhit]
      exact ⟨hagree, fun c hc => absurd hc (List.not_mem_nil c)⟩
    | none =>
      cases hren : renewalUUID (getCurrentByUserAnyStatus db req.userId) with
      | some pr =>
        obtain ⟨ex, vuid⟩ := pr
        have ⟨hcur, huuid, hvne⟩ := renewalUUID_eq_some.mp hren
        have ⟨hexmem, hexuser, _⟩ := getCurrentByUserAnyStatus_spec hcur
        have hexuuid : ex.otunUUID = some u := by
          apply hagree ex hexmem hexuser
          rw [huuid]
          simpa [nonEmptyUUID] using hvne
        simp only [provisionVPNUser, hhit, hren]
        constructor
        · -- store consistency in the renewal branch
          cases hch : (ex.channel != req.channel) <;>
            simp only [eq_self_iff_true, if_true, Bool.false_eq_true, if_false]
          · -- same channel: in-place update
            apply uuidConsistent_updateRow hagree
            intro _ _
            exact hexuuid
          · -- channel changed: mark old row, maybe insert the new one
            cases createOk <;>
              simp only [eq_self_iff_true, if_true, Bool.false_eq_true, if_false]
            · exact uuidConsistent_markNotCurrent hagree
            · apply uuidConsistent_cons (uuidConsistent_markNotCurrent hagree)
              intro _ _
              exact hexuuid
        · -- calls in the renewal branch never create a VPN user
          cases hch : (ex.channel != req.channel) <;>
            simp only [eq_self_iff_true, if_true, Bool.false_eq_true, if_false] <;>
            (intro c hc a
             rcases List.mem_append.mp hc with h | h
             · rw [mem_stacked_calls h]
               simp
             · simp only [List.mem_singleton] at h
               rw [h]
               simp)
      | none =>
        simp only [provisionVPNUser, hhit, hren]
        rw [hlook]
        simp only [hub, Bool.false_eq_true, if_false]
        cases hupd : otun.updateUserResult u
            { trafficLimit := calculateTrafficLimit req.planTier req.trafficLimit,
              expireAt := some (calculateExpireAt now
                (calculateExpireDays req.channel req.expireDays)),
              enabled := some true } with
        | error a =>
          simp only []
          refine ⟨hagree, ?_⟩
          intro c hc w
          simp only [List.mem_singleton] at hc
          rw [hc]
          simp
        | ok b =>
          simp only []
          have hbase : uuidConsistent
              (match getCurrentByUserAnyStatus db req.userId with
               | some ex => markNotCurrent db ex.id
               | none => db) req.userId u := by
            cases getCurrentByUserAnyStatus db req.userId with
            | some ex2 => exact uuidConsistent_markNotCurrent hagree
            | none => exact hagree
          constructor
          · cases createOk <;>
              simp only [eq_self_iff_true, if_true, Bool.false_eq_true, if_false]
            · exact hbase
            · exact uuidConsistent_cons hbase (fun _ _ => rfl)
          · cases createOk with
            | false =>
              simp only [Bool.false_eq_true, if_false]
              intro c hc w
              rcases List.mem_append.mp hc with h | h <;>
                (simp only [List.mem_singleton] at h
                 rw [h]
                 simp)
            | true =>
              simp only [eq_self_iff_true, if_true]
              intro c hc w
              simp only [List.mem_singleton] at hc
              rw [hc]
              simp
  · -- ActivateTrial
    intro cfg email deviceId emailCheck deviceCheck otun now fid vid pw createOk
    have hlook : getOtunUUIDByUser db uid = some u :=
      getOtunUUIDByUser_of_consistent hagree hex
    simp only [activateTrial]
    split
    · exact ⟨hagree, fun c hc => absurd hc (List.not_mem_nil c)⟩
    · split
      · exact ⟨hagree, fun c hc => absurd hc (List.not_mem_nil c)⟩
      · split
        · exact ⟨hagree, fun c hc => absurd hc (List.not_mem_nil c)⟩
        · split
          · exact ⟨hagree, fun c hc => absurd hc (List.not_mem_nil c)⟩
          · split
            · exact ⟨hagree, fun c hc => absurd hc (List.not_mem_nil c)⟩
            · rw [ensureVpnUser_reuse email otun (cfg.trafficGB * GB)
                (now + cfg.durationHours * secondsPerHour) "standard" vid pw
                "failed to update VPN user" "failed to create VPN user" hlook hub]
              cases hupd : otun.updateUserResult u
                  { trafficLimit := cfg.trafficGB * GB,
                    expireAt := some (now + cfg.durationHours * secondsPerHour),
                    enabled := some true } with
              | error a =>
                simp only []
                refine ⟨hagree, ?_⟩
                intro c hc w
                simp only [List.mem_singleton] at hc
                rw [hc]
                simp
              | ok b =>
                simp only []
                constructor
                · cases createOk <;>
                    simp only [eq_self_iff_true, if_true, Bool.false_eq_true, if_false]
                  · exact hagree
                  · exact uuidConsistent_cons hagree (fun _ _ => rfl)
                · cases createOk <;>
                    simp only [eq_self_iff_true, if_true, Bool.false_eq_true, if_false] <;>
                    (intro c hc w
                     rcases List.mem_cons.mp hc with h | h
                     · rw [h]
                       simp
                     · simp only [List.mem_singleton] at h
                       rw [h]
                       simp)
  · -- GiftEntitlement
    intro greq otun now fid vid pw createOk hreq
    have hlook : getOtunUUIDByUser db greq.userId = some u := by
      rw [hreq]
      exact getOtunUUIDByUser_of_consistent hagree hex
    simp only [giftEntitlement]
    rw [ensureVpnUser_reuse greq.email otun (greq.trafficGB * GB)
      (now + greq.durationDays * secondsPerDay)
      (if greq.serviceTier == "" then "standard" else greq.serviceTier) vid pw
      "failed to update VPN user" "failed to create VPN user" hlook hub]
    cases hupd : otun.updateUserResult u
        { trafficLimit := greq.trafficGB * GB,
          expireAt := some (now + greq.durationDays * secondsPerDay),
          enabled := some true } with
    | error a =>
      simp only []
      refine ⟨hagree, ?_⟩
      intro c hc w
      simp only [List.mem_singleton] at hc
      rw [hc]
      simp
    | ok b =>
      simp only []
      constructor
      · cases createOk <;>
          simp only [eq_self_iff_true, if_true, Bool.false_eq_true, if_false]
        · exact hagree
        · apply uuidConsistent_cons hagree
          intro hru _
          rfl
      · cases createOk <;>
          simp only [eq_self_iff_true, if_true, Bool.false_eq_true, if_false] <;>
          (intro c hc w
           rcases List.mem_cons.mp hc with h | h
           · rw [h]
             simp
           · simp only [List.mem_singleton] at h
             rw [h]
             simp)

/-- Witness for C2: a store holding one trial provision with uuid otun-1;
after a stripe purchase provision for the same user, every non-empty uuid in
the store is still otun-1. -/
theorem C2_otun_uuid_reuse_witness :
    uuidConsistent
      (provisionVPNUser
        [⟨"trial-1", "user-1", "", "trial", "trial", "standard", some "otun-1",
          "", "active", 0, 0, none, "", "d1", "system", "", true⟩]
        ⟨"sub-1", "user-1", "e", "stripe", "purchase", "premium", "", 0, 30⟩
        ⟨fun _ => .ok ⟨none⟩, fun _ _ => .ok (), fun _ => .ok "", fun _ => .ok ()⟩
        0 "new-1" "vid" [] true).db "user-1" "otun-1" :=
  ((C2_otun_uuid_reuse
      [⟨"trial-1", "user-1", "", "trial", "trial", "standard", some "otun-1",
        "", "active", 0, 0, none, "", "d1", "system", "", true⟩]
      "user-1" "otun-1"
      (by
        intro r hr h1 h2
        simp only [List.mem_singleton] at hr
        subst hr
        rfl)
      ⟨⟨"trial-1", "user-1", "", "trial", "trial", "standard", some "otun-1",
        "", "active", 0, 0, none, "", "d1", "system", "", true⟩,
       List.mem_singleton.mpr rfl, rfl, by decide⟩).1
    ⟨"sub-1", "user-1", "e", "stripe", "purchase", "premium", "", 0, 30⟩
    ⟨fun _ => .ok ⟨none⟩, fun _ _ => .ok (), fun _ => .ok "", fun _ => .ok ()⟩
    0 "new-1" "vid" [] true rfl).1

end Fulfillment
